import Mathlib

/-
Verification of the incremental skill-rating engine of deadlock-api-tools
(src/mmr-calc).  The algorithmic core is embedded shallowly: Python floats
are modelled by real numbers, Python dicts by association lists (one entry
per distinct key) and by functions K → Option ℝ for the rating snapshot,
and Python exceptions (AssertionError, ValueError from list.index,
ZeroDivisionError) by an Except monad.
-/

namespace DeadlockMMR

/-- RANKS table from src/mmr-calc/hero_mmr_calc.py (identical in
mmr_calc_optim.py): ordered list of tier/badge codes; a code's rank index
is its position in this list. -/
def RANKS : List ℕ :=
  [0, 11, 12, 13, 14, 15, 16, 21, 22, 23, 24, 25, 26,
   31, 32, 33, 34, 35, 36, 41, 42, 43, 44, 45, 46,
   51, 52, 53, 54, 55, 56, 61, 62, 63, 64, 65, 66,
   71, 72, 73, 74, 75, 76, 81, 82, 83, 84, 85, 86,
   91, 92, 93, 94, 95, 96, 101, 102, 103, 104, 105, 106,
   111, 112, 113, 114, 115, 116]

/-- MatchTeam (pydantic model): roster of entity keys, the team's average
badge code, and whether the team won.  The key type K is (account_id,
hero_id) in hero_mmr_calc.py and a raw account_id in mmr_calc_optim.py. -/
structure MatchTeam (K : Type) where
  players : List K
  average_badge_team : ℕ
  won : Bool

/-- Match (pydantic model): match id plus a list of teams. -/
structure GameMatch (K : Type) where
  match_id : ℕ
  teams : List (MatchTeam K)

/-- Python exceptions that can escape run_regression: the AssertionError of
the two-team assert, the ValueError of RANKS.index on an unknown code, and
the ZeroDivisionError of the mean over an empty team dict. -/
inductive RegError where
  | unsupportedMatchShape
  | unknownTierCode
  | zeroDivisionError
deriving DecidableEq

/-- Python list.index semantics: position of the first occurrence of a
value in a list, or none (ValueError) when absent. -/
def listIndex (code : ℕ) : List ℕ → Option ℕ
  | [] => none
  | c :: rest => if c = code then some 0 else (listIndex code rest).map (fun i => i + 1)

/-- In-memory rating snapshot (the all_player_mmrs dict): partial map from
entity key to current rating. -/
abbrev Snapshot (K : Type) := K → Option ℝ

/-- Python dict comprehension over a roster with snapshot lookup and a
cold-start seed value (dict.get with default): one entry per distinct key. -/
def dictOfKeys {K : Type} [DecidableEq K] (snap : Snapshot K) (seed : ℝ)
    (players : List K) : List (K × ℝ) :=
  players.dedup.map (fun p => (p, (snap p).getD seed))

/-- Sum of the rating values of a team dict (sum of dict .values()). -/
def valsSum {K : Type} (l : List (K × ℝ)) : ℝ :=
  (l.map Prod.snd).sum

/-- Logistic expected-outcome model, hero_mmr_calc.py lines 211-212 (same
in mmr_calc_optim.py). -/
noncomputable def expected_outcome (average_team0 average_team1 : ℝ) : ℝ :=
  1 / (1 + (10 : ℝ) ^ ((average_team1 - average_team0) / 400))

/-- Step-4 per-team error computation of hero_mmr_calc.py, lines 237-245
(and, recomputed on updated predictions, lines 260-268): tie-break branch
when both badges are 116, else the per-entity share of the gap between the
true rank index and the predicted mean rank. -/
noncomputable def stepErrors (badge0 badge1 : ℕ) (true0 true1 pred0 pred1 n0 n1 : ℝ) :
    ℝ × ℝ :=
  if badge0 = 116 ∧ badge1 = 116 then
    ((pred1 - pred0) / n0 / 2, (pred0 - pred1) / n1 / 2)
  else
    ((true0 - pred0) / n0, (true1 - pred1) / n1)

/-- Embedding of run_regression from src/mmr-calc/hero_mmr_calc.py, lines
215-275.  Failures are surfaced in the order the Python raises them:
AssertionError for a non-two-team match, ValueError for an unknown badge
code, ZeroDivisionError when a team dict is empty at the mean computation. -/
noncomputable def run_regression {K : Type} [DecidableEq K] (m : GameMatch K)
    (all_player_mmrs : Snapshot K) (update_sensitivity learning_rate : ℝ) :
    Except RegError (List (K × ℝ) × ℝ) :=
  match m.teams with
  | [team0, team1] =>
    match listIndex team0.average_badge_team RANKS,
          listIndex team1.average_badge_team RANKS with
    | some i0, some i1 =>
      let avg_team0_rank_true : ℝ := i0
      let avg_team1_rank_true : ℝ := i1
      let team0_ranks := dictOfKeys all_player_mmrs avg_team0_rank_true team0.players
      let team1_ranks := dictOfKeys all_player_mmrs avg_team1_rank_true team1.players
      if team0_ranks.length = 0 ∨ team1_ranks.length = 0 then
        .error .zeroDivisionError
      else
        let n0 : ℝ := team0_ranks.length
        let n1 : ℝ := team1_ranks.length
        let avg_team0_rank_pred := valsSum team0_ranks / n0
        let avg_team1_rank_pred := valsSum team1_ranks / n1
        let errs := stepErrors team0.average_badge_team team1.average_badge_team
          avg_team0_rank_true avg_team1_rank_true
          avg_team0_rank_pred avg_team1_rank_pred n0 n1
        let expected0 := expected_outcome avg_team0_rank_pred avg_team1_rank_pred
        let outcome0 : ℝ := if team0.won then 1 else 0
        let team0_ranks2 := team0_ranks.map
          (fun pr => (pr.1, pr.2 + update_sensitivity * (outcome0 - expected0)))
        let team1_ranks2 := team1_ranks.map
          (fun pr => (pr.1, pr.2 + update_sensitivity * (expected0 - outcome0)))
        let new_pred0 := valsSum team0_ranks2 / n0
        let new_pred1 := valsSum team1_ranks2 / n1
        let new_errs := stepErrors team0.average_badge_team team1.average_badge_team
          avg_team0_rank_true avg_team1_rank_true new_pred0 new_pred1 n0 n1
        let updates :=
          team0_ranks2.map (fun pr => (pr.1, pr.2 + learning_rate * new_errs.1))
          ++ team1_ranks2.map (fun pr => (pr.1, pr.2 + learning_rate * new_errs.2))
        .ok (updates, (|errs.1| + |errs.2|) / 2)
    | _, _ => .error .unknownTierCode
  | _ => .error .unsupportedMatchShape

/-- Embedding of run_regression from src/mmr-calc/mmr_calc_optim.py, lines
210-262: same two-pass scheme, but matches with both badges 116 return an
empty update set and zero error up front, and the step errors are always
the tier-target form. -/
noncomputable def run_regression_optim {K : Type} [DecidableEq K] (m : GameMatch K)
    (all_player_mmrs : Snapshot K) (update_sensitivity learning_rate : ℝ) :
    Except RegError (List (K × ℝ) × ℝ) :=
  match m.teams with
  | [team0, team1] =>
    if team0.average_badge_team = 116 ∧ team1.average_badge_team = 116 then
      .ok ([], 0)
    else
      match listIndex team0.average_badge_team RANKS,
            listIndex team1.average_badge_team RANKS with
      | some i0, some i1 =>
        let avg_team0_rank_true : ℝ := i0
        let avg_team1_rank_true : ℝ := i1
        let team0_ranks := dictOfKeys all_player_mmrs avg_team0_rank_true team0.players
        let team1_ranks := dictOfKeys all_player_mmrs avg_team1_rank_true team1.players
        if team0_ranks.length = 0 ∨ team1_ranks.length = 0 then
          .error .zeroDivisionError
        else
          let n0 : ℝ := team0_ranks.length
          let n1 : ℝ := team1_ranks.length
          let avg_team0_rank_pred := valsSum team0_ranks / n0
          let avg_team1_rank_pred := valsSum team1_ranks / n1
          let error0 := (avg_team0_rank_true - avg_team0_rank_pred) / n0
          let error1 := (avg_team1_rank_true - avg_team1_rank_pred) / n1
          let expected0 := expected_outcome avg_team0_rank_pred avg_team1_rank_pred
          let outcome0 : ℝ := if team0.won then 1 else 0
          let team0_ranks2 := team0_ranks.map
            (fun pr => (pr.1, pr.2 + update_sensitivity * (outcome0 - expected0)))
          let team1_ranks2 := team1_ranks.map
            (fun pr => (pr.1, pr.2 + update_sensitivity * (expected0 - outcome0)))
          let new_pred0 := valsSum team0_ranks2 / n0
          let new_pred1 := valsSum team1_ranks2 / n1
          let new_error0 := (avg_team0_rank_true - new_pred0) / n0
          let new_error1 := (avg_team1_rank_true - new_pred1) / n1
          let updates :=
            team0_ranks2.map (fun pr => (pr.1, pr.2 + learning_rate * new_error0))
            ++ team1_ranks2.map (fun pr => (pr.1, pr.2 + learning_rate * new_error1))
          .ok (updates, (|error0| + |error1|) / 2)
      | _, _ => .error .unknownTierCode
  | _ => .error .unsupportedMatchShape

/-- Last-binding-wins association lookup: the value the key holds after a
Python dict is built from the list of bindings in order. -/
def lookupLast {K : Type} [DecidableEq K] (k : K) : List (K × ℝ) → Option ℝ
  | [] => none
  | (k2, v) :: rest =>
    match lookupLast k rest with
    | some v2 => some v2
    | none => if k2 = k then some v else none

/-- Python dict.update semantics: every key bound in the update list takes
its (last) updated value, every other key keeps its snapshot value. -/
def updSnap {K : Type} [DecidableEq K] (snap : Snapshot K) (upds : List (K × ℝ)) :
    Snapshot K :=
  fun k =>
    match lookupLast k upds with
    | some v => some v
    | none => snap k

/-- Apply pass of main (hero_mmr_calc.py lines 287-291) over a batch of
matches, with explicit state passing: per match, run the regression and
merge its replacement ratings into the snapshot, accumulating the error
sum.  An exception from run_regression aborts the loop at that match (the
Python for-loop has no per-match handler; the exception propagates to the
top-level supervisor), which is recorded as the third component together
with the snapshot as it stood before the failing match. -/
noncomputable def processUpTo {K : Type} [DecidableEq K] (ms : List (GameMatch K))
    (snap : Snapshot K) (s lr : ℝ) : Snapshot K × ℝ × Option RegError :=
  match ms with
  | [] => (snap, 0, none)
  | m :: rest =>
    match run_regression m snap s lr with
    | .error e => (snap, 0, some e)
    | .ok (upd, err) =>
      let r := processUpTo rest (updSnap snap upd) s lr
      (r.1, err + r.2.1, r.2.2)

/-- Error component of a regression result, none when the call raised. -/
def errOf {K : Type} (r : Except RegError (List (K × ℝ) × ℝ)) : Option ℝ :=
  match r with
  | .ok (_, e) => some e
  | .error _ => none

/-- Empty (cold-start) snapshot over composite (account_id, hero_id) keys. -/
def snapEmpty : Snapshot (ℕ × ℕ) := fun _ => none

/-- Empty (cold-start) snapshot over raw account_id keys. -/
def snapEmptyN : Snapshot ℕ := fun _ => none

/-- Scenario match of claim C1: two one-player teams, badge codes 24 and 26
(rank indexes 10 and 12), team0 wins. -/
def mC1 : GameMatch (ℕ × ℕ) := ⟨1, [⟨[(1, 1)], 24, true⟩, ⟨[(2, 2)], 26, false⟩]⟩

/-- Outcome-pass shift of the C1 scenario: sensitivity times (outcome minus
expected win probability) at predicted ranks 10 and 12. -/
noncomputable def dC1 : ℝ := 1.06 * (1 - expected_outcome 10 12)

/-- Concrete match for claim C3: one-player teams at badge codes 0 and 11
(rank indexes 0 and 1), cold start, team0 wins. -/
def mC3 : GameMatch (ℕ × ℕ) := ⟨2, [⟨[(3, 3)], 0, true⟩, ⟨[(4, 4)], 11, false⟩]⟩

/-- Outcome-pass shift of the C3 counterexample match. -/
noncomputable def dC3 : ℝ := 1.06 * (1 - expected_outcome 0 1)

/-- Concrete match instantiating the amended claim C3. -/
def mC3w : GameMatch (ℕ × ℕ) := ⟨3, [⟨[(5, 5)], 24, true⟩, ⟨[(6, 6)], 26, false⟩]⟩

/-- Concrete match for claim C4: both badges 116, rosters of sizes 1 and 2. -/
def mC4 : GameMatch (ℕ × ℕ) := ⟨4, [⟨[(7, 7)], 116, true⟩, ⟨[(8, 8), (9, 9)], 116, false⟩]⟩

/-- Snapshot for claim C4: predicted ranks 0 (team0) and (1+3)/2 = 2 (team1). -/
def snapC4 : Snapshot (ℕ × ℕ) := fun k =>
  if k = (7, 7) then some 0
  else if k = (8, 8) then some 1
  else if k = (9, 9) then some 3
  else none

/-- Match with an unknown badge code 17 (not in RANKS), for claim C2. -/
def mBadTier : GameMatch (ℕ × ℕ) := ⟨5, [⟨[(21, 1)], 17, true⟩, ⟨[(22, 1)], 24, false⟩]⟩

/-- Valid match following the bad one in the C2 batch. -/
def mGoodA : GameMatch (ℕ × ℕ) := ⟨6, [⟨[(23, 1)], 24, true⟩, ⟨[(24, 1)], 26, false⟩]⟩

/-- Valid match preceding the failing one in the C5 batch. -/
def mGoodB : GameMatch (ℕ × ℕ) := ⟨7, [⟨[(25, 1)], 24, true⟩, ⟨[(26, 1)], 26, false⟩]⟩

/-- Match with an unknown badge code 18, failing mid-batch in claim C5. -/
def mBadTier2 : GameMatch (ℕ × ℕ) := ⟨8, [⟨[(27, 1)], 18, true⟩, ⟨[(28, 1)], 24, false⟩]⟩

/-- Concrete match instantiating claim C6. -/
def mC6w : GameMatch (ℕ × ℕ) := ⟨9, [⟨[(29, 1)], 31, true⟩, ⟨[(30, 1)], 32, false⟩]⟩

/-- Concrete match over raw account ids instantiating claim C7. -/
def mC7w : GameMatch ℕ := ⟨10, [⟨[31], 24, true⟩, ⟨[32], 26, false⟩]⟩

/-- Concrete match instantiating claim C8. -/
def mC8w : GameMatch (ℕ × ℕ) := ⟨11, [⟨[(41, 1)], 24, true⟩, ⟨[(42, 1)], 26, false⟩]⟩

/-- Concrete match instantiating claim C9. -/
def mC9w : GameMatch (ℕ × ℕ) := ⟨12, [⟨[(43, 1)], 24, true⟩, ⟨[(44, 1)], 26, false⟩]⟩

/-- Snapshot that is extensionally empty although written differently, for
claim C9. -/
def snapIfEmpty : Snapshot (ℕ × ℕ) := fun k => if k.1 < k.1 then some 5 else none

/-- Well-formed match instantiating the totality half of claim C10. -/
def mC10ok : GameMatch (ℕ × ℕ) := ⟨13, [⟨[(45, 1)], 24, true⟩, ⟨[(46, 1)], 26, false⟩]⟩

/-- Match whose first team has an empty roster, for claim C10. -/
def mC10empty : GameMatch (ℕ × ℕ) :=
  ⟨14, [⟨([] : List (ℕ × ℕ)), 24, true⟩, ⟨[(47, 1)], 26, false⟩]⟩

theorem dictOfKeys_length_ne_zero {K : Type} [DecidableEq K] (snap : Snapshot K)
    (seed : ℝ) (players : List K) (hp : players ≠ []) :
    ¬ (dictOfKeys snap seed players).length = 0 := by
  simp [dictOfKeys, List.length_eq_zero, List.dedup_eq_nil, hp]

/-- Unfolding lemma: on a two-team match whose badge codes resolve and whose
rosters are nonempty, run_regression reaches its success branch and returns
exactly the two-pass composition of the code. -/
theorem run_regression_eq {K : Type} [DecidableEq K] (mid : ℕ) (t0 t1 : MatchTeam K)
    (snap : Snapshot K) (s lr : ℝ) (i0 i1 : ℕ)
    (h0 : listIndex t0.average_badge_team RANKS = some i0)
    (h1 : listIndex t1.average_badge_team RANKS = some i1)
    (hp0 : t0.players ≠ []) (hp1 : t1.players ≠ []) :
    run_regression ⟨mid, [t0, t1]⟩ snap s lr =
      (let d0 := dictOfKeys snap (i0 : ℝ) t0.players
       let d1 := dictOfKeys snap (i1 : ℝ) t1.players
       let n0 : ℝ := d0.length
       let n1 : ℝ := d1.length
       let pred0 := valsSum d0 / n0
       let pred1 := valsSum d1 / n1
       let errs := stepErrors t0.average_badge_team t1.average_badge_team
         i0 i1 pred0 pred1 n0 n1
       let e := expected_outcome pred0 pred1
       let o : ℝ := if t0.won then 1 else 0
       let d0b := d0.map (fun pr => (pr.1, pr.2 + s * (o - e)))
       let d1b := d1.map (fun pr => (pr.1, pr.2 + s * (e - o)))
       let nerrs := stepErrors t0.average_badge_team t1.average_badge_team
         i0 i1 (valsSum d0b / n0) (valsSum d1b / n1) n0 n1
       .ok (d0b.map (fun pr => (pr.1, pr.2 + lr * nerrs.1))
            ++ d1b.map (fun pr => (pr.1, pr.2 + lr * nerrs.2)),
            (|errs.1| + |errs.2|) / 2)) := by
  have hL : ¬((dictOfKeys snap ((i0 : ℕ) : ℝ) t0.players).length = 0 ∨
      (dictOfKeys snap ((i1 : ℕ) : ℝ) t1.players).length = 0) := by
    push_neg
    exact ⟨dictOfKeys_length_ne_zero snap _ _ hp0, dictOfKeys_length_ne_zero snap _ _ hp1⟩
  unfold run_regression
  dsimp only
  rw [h0, h1]
  dsimp only
  rw [if_neg hL]

theorem expected_outcome_pos (a0 a1 : ℝ) : 0 < expected_outcome a0 a1 := by
  unfold expected_outcome
  have h := Real.rpow_pos_of_pos (show (0:ℝ) < 10 by norm_num) ((a1 - a0) / 400)
  positivity

theorem expected_outcome_lt_one (a0 a1 : ℝ) : expected_outcome a0 a1 < 1 := by
  unfold expected_outcome
  have h := Real.rpow_pos_of_pos (show (0:ℝ) < 10 by norm_num) ((a1 - a0) / 400)
  rw [div_lt_one (by linarith)]
  linarith

theorem valsSum_map_add {K : Type} (l : List (K × ℝ)) (c : ℝ) :
    valsSum (l.map (fun pr => (pr.1, pr.2 + c))) = valsSum l + l.length * c := by
  induction l with
  | nil => simp [valsSum]
  | cons p t ih =>
    simp only [valsSum, List.map_cons, List.sum_cons, List.length_cons] at ih ⊢
    push_cast
    rw [ih]
    ring

/-- C1 (amended): in the end-to-end scenario of mC1 (one-player teams at
rank indexes 10 and 12, cold start, team0 wins), the outcome pass raises
team0's rating from 10 by the positive shift dC1 and lowers team1's from 12
by the same amount; the anchor pass pulls both ratings back toward 10 and
12 respectively (strictly closer, but not equal — a residual shift of half
the outcome shift remains); the returned error, however, is exactly 0, not
positive, because on a cold start the step-4 predicted ranks equal the true
ranks. -/
theorem c1_theorem :
    0 < dC1 ∧
    run_regression mC1 snapEmpty 1.06 1.5
      = .ok ([((1, 1), 10 + dC1 - 1.5 * dC1), ((2, 2), 12 - dC1 + 1.5 * dC1)], 0) ∧
    (10 : ℝ) < 10 + dC1 ∧ (12 : ℝ) - dC1 < 12 ∧
    |10 + dC1 - 1.5 * dC1 - 10| < |10 + dC1 - 10| ∧
    |12 - dC1 + 1.5 * dC1 - 12| < |12 - dC1 - 12| ∧
    10 + dC1 - 1.5 * dC1 ≠ 10 ∧ 12 - dC1 + 1.5 * dC1 ≠ 12 := by
  have hd : 0 < dC1 := by
    unfold dC1
    nlinarith [expected_outcome_lt_one 10 12]
  refine ⟨hd, ?_, by linarith, by linarith, ?_, ?_, by intro h; linarith, by intro h; linarith⟩
  · unfold mC1
    rw [run_regression_eq 1 ⟨[(1, 1)], 24, true⟩ ⟨[(2, 2)], 26, false⟩ snapEmpty 1.06 1.5 10 12
      (by decide) (by decide) (by decide) (by decide)]
    have hd0 : dictOfKeys snapEmpty ((10 : ℕ) : ℝ) [(1, 1)] = [((1, 1), ((10 : ℕ) : ℝ))] := rfl
    have hd1 : dictOfKeys snapEmpty ((12 : ℕ) : ℝ) [(2, 2)] = [((2, 2), ((12 : ℕ) : ℝ))] := rfl
    dsimp only
    rw [hd0, hd1]
    norm_num [stepErrors, valsSum, dC1]
    ring_nf
    trivial
  · rw [show (10 : ℝ) + dC1 - 1.5 * dC1 - 10 = -(0.5 * dC1) by ring,
      show (10 : ℝ) + dC1 - 10 = dC1 by ring, abs_neg,
      abs_of_pos (by linarith), abs_of_pos hd]
    linarith
  · rw [show (12 : ℝ) - dC1 + 1.5 * dC1 - 12 = 0.5 * dC1 by ring,
      show (12 : ℝ) - dC1 - 12 = -dC1 by ring, abs_neg,
      abs_of_pos (by linarith), abs_of_pos hd]
    linarith

/-- C1: counterexample to the claim as stated — the error run_regression
returns on the C1 scenario is exactly 0, not nonzero and positive: with
both entities absent from the snapshot they are seeded to the true rank
indexes, so the step-4 predicted ranks equal the true ranks and the
reported error vanishes. -/
theorem c1_counterexample :
    errOf (run_regression mC1 snapEmpty 1.06 1.5) = some 0 := by
  unfold mC1
  rw [run_regression_eq 1 ⟨[(1, 1)], 24, true⟩ ⟨[(2, 2)], 26, false⟩ snapEmpty 1.06 1.5 10 12
    (by decide) (by decide) (by decide) (by decide)]
  have hd0 : dictOfKeys snapEmpty ((10 : ℕ) : ℝ) [(1, 1)] = [((1, 1), ((10 : ℕ) : ℝ))] := rfl
  have hd1 : dictOfKeys snapEmpty ((12 : ℕ) : ℝ) [(2, 2)] = [((2, 2), ((12 : ℕ) : ℝ))] := rfl
  dsimp only
  rw [hd0, hd1]
  norm_num [stepErrors, valsSum, errOf]

/-- C2 (amended): a failure of run_regression (unknown tier code or wrong
team count) is NOT confined to the failing match — the update loop's pass
over the batch has no per-match handler, so the exception aborts the pass
at that match: no later match of the batch is processed, the error sum
resets, and the abort reaches the top-level supervisor (which retries the
whole pass). -/
theorem c2_theorem {K : Type} [DecidableEq K] (m : GameMatch K)
    (rest : List (GameMatch K)) (snap : Snapshot K) (s lr : ℝ) (e : RegError)
    (hfail : run_regression m snap s lr = .error e) :
    processUpTo (m :: rest) snap s lr = (snap, 0, some e) := by
  unfold processUpTo
  rw [hfail]

/-- C2: witness for the amended theorem at a concrete batch whose first
match carries the unknown badge code 17. -/
theorem c2_witness :
    run_regression mBadTier snapEmpty 1.06 1.5 = .error RegError.unknownTierCode ∧
    processUpTo [mBadTier, mGoodA] snapEmpty 1.06 1.5
      = (snapEmpty, 0, some RegError.unknownTierCode) :=
  ⟨rfl, c2_theorem mBadTier [mGoodA] snapEmpty 1.06 1.5 RegError.unknownTierCode rfl⟩

/-- C2: counterexample to the skip-and-continue claim — in the batch
[mBadTier, mGoodA] the first match's unknown tier code aborts the pass, and
the second, perfectly processable match is never applied: its player is
still absent from the resulting snapshot even though run_regression would
have succeeded on it. -/
theorem c2_counterexample :
    (processUpTo [mBadTier, mGoodA] snapEmpty 1.06 1.5).2.2 = some RegError.unknownTierCode ∧
    (processUpTo [mBadTier, mGoodA] snapEmpty 1.06 1.5).1 (23, 1) = none ∧
    (∃ out, run_regression mGoodA snapEmpty 1.06 1.5 = .ok out) := by
  refine ⟨rfl, rfl, ?_⟩
  unfold mGoodA
  exact ⟨_, run_regression_eq 6 ⟨[(23, 1)], 24, true⟩ ⟨[(24, 1)], 26, false⟩ snapEmpty 1.06 1.5
    10 12 (by decide) (by decide) (by decide) (by decide)⟩

/-- C5: no partial match update is ever merged — if a batch processed from
some snapshot fails at a match (after a successfully processed prefix), the
snapshot at the moment of the failure is exactly the snapshot produced by
the prefix: the failing match contributed nothing, because run_regression
computes a match's ratings into a fresh mapping and the merge happens only
after it returns. -/
theorem c5_theorem {K : Type} [DecidableEq K] (pre : List (GameMatch K))
    (m : GameMatch K) (rest : List (GameMatch K)) (snap : Snapshot K) (s lr : ℝ)
    (e : RegError)
    (hpre : (processUpTo pre snap s lr).2.2 = none)
    (hfail : run_regression m (processUpTo pre snap s lr).1 s lr = .error e) :
    processUpTo (pre ++ m :: rest) snap s lr =
      ((processUpTo pre snap s lr).1, (processUpTo pre snap s lr).2.1, some e) := by
  induction pre generalizing snap with
  | nil =>
    simp only [processUpTo] at hpre hfail ⊢
    rw [hfail]
  | cons a pre2 ih =>
    rcases hra : run_regression a snap s lr with e2 | r
    · simp only [processUpTo, hra] at hpre
      exact absurd hpre (by simp)
    · rcases r with ⟨upd, err⟩
      simp only [List.cons_append, List.append_eq, processUpTo, hra] at hpre hfail ⊢
      rw [ih (updSnap snap upd) hpre hfail]

/-- C5: witness — one good match followed by a match with unknown badge
code 18; the failure leaves the snapshot exactly as after the good match. -/
theorem c5_witness :
    (processUpTo [mGoodB] snapEmpty 1.06 1.5).2.2 = none ∧
    processUpTo ([mGoodB] ++ mBadTier2 :: []) snapEmpty 1.06 1.5 =
      ((processUpTo [mGoodB] snapEmpty 1.06 1.5).1,
       (processUpTo [mGoodB] snapEmpty 1.06 1.5).2.1, some RegError.unknownTierCode) :=
  ⟨rfl, c5_theorem [mGoodB] mBadTier2 [] snapEmpty 1.06 1.5 RegError.unknownTierCode rfl rfl⟩

/-- C9: determinism — processing an ordered batch depends on nothing but
the match list and the starting snapshot: two runs from extensionally equal
snapshots produce identical final snapshots, error sums and abort states. -/
theorem c9_theorem {K : Type} [DecidableEq K] (ms : List (GameMatch K))
    (snap1 snap2 : Snapshot K) (s lr : ℝ) (h : ∀ k, snap1 k = snap2 k) :
    processUpTo ms snap1 s lr = processUpTo ms snap2 s lr := by
  rw [funext h]

/-- C9: witness at a concrete batch and two syntactically different but
extensionally equal empty snapshots. -/
theorem c9_witness :
    processUpTo [mC9w] snapEmpty 1.06 1.5 = processUpTo [mC9w] snapIfEmpty 1.06 1.5 :=
  c9_theorem [mC9w] snapEmpty snapIfEmpty 1.06 1.5
    (by intro k; simp [snapEmpty, snapIfEmpty])

/-- C3 (amended): for every two-team match (badges known, not both 116,
rosters nonempty) whose predicted team ranks equal the true rank indexes,
run_regression returns error exactly 0, and the replacement ratings equal
the inputs plus the pure outcome-pass shift plus a second-pass correction
of learning_rate times -shift/teamSize for team0 (resp. +shift/teamSize for
team1) — the second pass does make a further change, partially retracting
the outcome shift, contrary to the claim as stated. -/
theorem c3_theorem {K : Type} [DecidableEq K] (mid : ℕ) (t0 t1 : MatchTeam K)
    (snap : Snapshot K) (s lr : ℝ) (i0 i1 : ℕ)
    (h0 : listIndex t0.average_badge_team RANKS = some i0)
    (h1 : listIndex t1.average_badge_team RANKS = some i1)
    (hne : ¬(t0.average_badge_team = 116 ∧ t1.average_badge_team = 116))
    (hp0 : t0.players ≠ []) (hp1 : t1.players ≠ [])
    (hpred0 : valsSum (dictOfKeys snap (i0 : ℝ) t0.players)
        / ((dictOfKeys snap (i0 : ℝ) t0.players).length : ℝ) = (i0 : ℝ))
    (hpred1 : valsSum (dictOfKeys snap (i1 : ℝ) t1.players)
        / ((dictOfKeys snap (i1 : ℝ) t1.players).length : ℝ) = (i1 : ℝ)) :
    run_regression ⟨mid, [t0, t1]⟩ snap s lr =
      (let d0 := dictOfKeys snap (i0 : ℝ) t0.players
       let d1 := dictOfKeys snap (i1 : ℝ) t1.players
       let n0 : ℝ := d0.length
       let n1 : ℝ := d1.length
       let shift := s * ((if t0.won then (1 : ℝ) else 0) - expected_outcome i0 i1)
       .ok (d0.map (fun pr => (pr.1, pr.2 + shift + lr * (-shift / n0)))
            ++ d1.map (fun pr => (pr.1, pr.2 - shift + lr * (shift / n1))), 0)) := by
  have hn0 : ((dictOfKeys snap (i0 : ℝ) t0.players).length : ℝ) ≠ 0 := by
    have h := dictOfKeys_length_ne_zero snap (i0 : ℝ) t0.players hp0
    exact_mod_cast h
  have hn1 : ((dictOfKeys snap (i1 : ℝ) t1.players).length : ℝ) ≠ 0 := by
    have h := dictOfKeys_length_ne_zero snap (i1 : ℝ) t1.players hp1
    exact_mod_cast h
  have hv0 : valsSum (dictOfKeys snap (i0 : ℝ) t0.players)
      = (i0 : ℝ) * ((dictOfKeys snap (i0 : ℝ) t0.players).length : ℝ) :=
    (div_eq_iff hn0).mp hpred0
  have hv1 : valsSum (dictOfKeys snap (i1 : ℝ) t1.players)
      = (i1 : ℝ) * ((dictOfKeys snap (i1 : ℝ) t1.players).length : ℝ) :=
    (div_eq_iff hn1).mp hpred1
  rw [run_regression_eq mid t0 t1 snap s lr i0 i1 h0 h1 hp0 hp1]
  dsimp only
  rw [hpred0, hpred1]
  simp only [stepErrors, hne, if_false, valsSum_map_add, hv0, hv1, List.map_map]
  norm_num
  congr 1
  · apply List.map_congr_left
    intro pr hpr
    simp only [Function.comp]
    rw [Prod.mk.injEq]
    refine ⟨rfl, ?_⟩
    field_simp
    ring
  · apply List.map_congr_left
    intro pr hpr
    simp only [Function.comp]
    rw [Prod.mk.injEq]
    refine ⟨rfl, ?_⟩
    field_simp
    ring

/-- C3: counterexample to "deltas reduce to the pure outcome-pass shift" —
on match mC3 (cold start, predicted ranks equal true ranks 0 and 1), the
returned rating for team0's player is input + shift - 1.5 * shift, which
differs from input + shift because the shift is strictly positive. -/
theorem c3_counterexample :
    run_regression mC3 snapEmpty 1.06 1.5
      = .ok ([((3, 3), 0 + dC3 - 1.5 * dC3), ((4, 4), 1 - dC3 + 1.5 * dC3)], 0) ∧
    0 + dC3 - 1.5 * dC3 ≠ 0 + dC3 := by
  constructor
  · unfold mC3
    rw [run_regression_eq 2 ⟨[(3, 3)], 0, true⟩ ⟨[(4, 4)], 11, false⟩ snapEmpty 1.06 1.5 0 1
      (by decide) (by decide) (by decide) (by decide)]
    have hd0 : dictOfKeys snapEmpty ((0 : ℕ) : ℝ) [(3, 3)] = [((3, 3), ((0 : ℕ) : ℝ))] := rfl
    have hd1 : dictOfKeys snapEmpty ((1 : ℕ) : ℝ) [(4, 4)] = [((4, 4), ((1 : ℕ) : ℝ))] := rfl
    dsimp only
    rw [hd0, hd1]
    norm_num [stepErrors, valsSum, dC3]
    ring_nf
    trivial
  · have hd : 0 < dC3 := by
      unfold dC3
      nlinarith [expected_outcome_lt_one 0 1]
    intro h
    linarith

/-- C3: witness for the amended theorem at a concrete match with predicted
ranks equal to the true ranks 10 and 12. -/
theorem c3_witness :
    valsSum (dictOfKeys snapEmpty ((10 : ℕ) : ℝ) [((5 : ℕ), (5 : ℕ))])
        / ((dictOfKeys snapEmpty ((10 : ℕ) : ℝ) [((5 : ℕ), (5 : ℕ))]).length : ℝ)
      = ((10 : ℕ) : ℝ) ∧
    ∃ out, run_regression mC3w snapEmpty 1.06 1.5 = .ok out := by
  have hp0 : valsSum (dictOfKeys snapEmpty ((10 : ℕ) : ℝ) [((5 : ℕ), (5 : ℕ))])
      / ((dictOfKeys snapEmpty ((10 : ℕ) : ℝ) [((5 : ℕ), (5 : ℕ))]).length : ℝ)
      = ((10 : ℕ) : ℝ) := by
    rw [show dictOfKeys snapEmpty ((10 : ℕ) : ℝ) [((5 : ℕ), (5 : ℕ))]
      = [(((5 : ℕ), (5 : ℕ)), ((10 : ℕ) : ℝ))] from rfl]
    norm_num [valsSum]
  have hp1 : valsSum (dictOfKeys snapEmpty ((12 : ℕ) : ℝ) [((6 : ℕ), (6 : ℕ))])
      / ((dictOfKeys snapEmpty ((12 : ℕ) : ℝ) [((6 : ℕ), (6 : ℕ))]).length : ℝ)
      = ((12 : ℕ) : ℝ) := by
    rw [show dictOfKeys snapEmpty ((12 : ℕ) : ℝ) [((6 : ℕ), (6 : ℕ))]
      = [(((6 : ℕ), (6 : ℕ)), ((12 : ℕ) : ℝ))] from rfl]
    norm_num [valsSum]
  refine ⟨hp0, ?_⟩
  unfold mC3w
  exact ⟨_, c3_theorem 3 ⟨[(5, 5)], 24, true⟩ ⟨[(6, 6)], 26, false⟩ snapEmpty 1.06 1.5 10 12
    (by decide) (by decide) (by decide) (by decide) (by decide) hp0 hp1⟩

/-- C4 (amended): the tie-break rule makes the two teams' step-4 errors
exact negations of each other — with equal magnitudes — for every pair of
predicted ranks, provided the two teams have the same roster size n (as is
the case for all 6v6 matches the pipeline feeds); with unequal roster
sizes the division by each team's own size breaks the symmetry. -/
theorem c4_theorem (true0 true1 pred0 pred1 n : ℝ) :
    (stepErrors 116 116 true0 true1 pred0 pred1 n n).1
      = -(stepErrors 116 116 true0 true1 pred0 pred1 n n).2 ∧
    |(stepErrors 116 116 true0 true1 pred0 pred1 n n).1|
      = |(stepErrors 116 116 true0 true1 pred0 pred1 n n).2| := by
  have h : (stepErrors 116 116 true0 true1 pred0 pred1 n n).1
      = -(stepErrors 116 116 true0 true1 pred0 pred1 n n).2 := by
    norm_num [stepErrors]
    ring
  exact ⟨h, by rw [h, abs_neg]⟩

/-- C4: counterexample to the claim over all two-team matches — on mC4
(both badges 116, roster sizes 1 and 2, predicted ranks 0 and 2) the step-4
errors are 1 and -1/2: not negations of each other and of unequal
magnitude, which also surfaces in the returned error (1 + 1/2)/2 = 3/4. -/
theorem c4_counterexample :
    errOf (run_regression mC4 snapC4 1.06 1.5) = some (3 / 4) ∧
    (stepErrors 116 116 66 66 0 2 1 2).1 ≠ -(stepErrors 116 116 66 66 0 2 1 2).2 ∧
    |(stepErrors 116 116 66 66 0 2 1 2).1| ≠ |(stepErrors 116 116 66 66 0 2 1 2).2| := by
  refine ⟨?_, by norm_num [stepErrors], by norm_num [stepErrors, abs_of_nonneg]⟩
  unfold mC4
  rw [run_regression_eq 4 ⟨[(7, 7)], 116, true⟩ ⟨[(8, 8), (9, 9)], 116, false⟩ snapC4 1.06 1.5
    66 66 (by decide) (by decide) (by decide) (by decide)]
  have hd0 : dictOfKeys snapC4 ((66 : ℕ) : ℝ) [(7, 7)] = [((7, 7), (0 : ℝ))] := rfl
  have hd1 : dictOfKeys snapC4 ((66 : ℕ) : ℝ) [(8, 8), (9, 9)]
      = [((8, 8), (1 : ℝ)), ((9, 9), (3 : ℝ))] := rfl
  dsimp only
  rw [hd0, hd1]
  norm_num [stepErrors, valsSum, errOf, abs_of_nonneg]

/-- Membership in a list yields a first-occurrence index for listIndex. -/
theorem listIndex_of_mem {c : ℕ} : ∀ {l : List ℕ}, c ∈ l → ∃ i, listIndex c l = some i := by
  intro l
  induction l with
  | nil => intro h; cases h
  | cons a t ih =>
    intro h
    by_cases hac : a = c
    · exact ⟨0, by simp [listIndex, hac]⟩
    · have hct : c ∈ t := by
        rcases List.mem_cons.mp h with h2 | h2
        · exact absurd h2.symm hac
        · exact h2
      rcases ih hct with ⟨i, hi⟩
      exact ⟨i + 1, by simp [listIndex, hac, hi]⟩

/-- C10: run_regression is total on every two-team match whose badge codes
are in RANKS and whose rosters are both nonempty; and on a two-team match
with resolvable badge codes but an empty roster on either side it raises
the unguarded ZeroDivisionError of the mean computation. -/
theorem c10_theorem :
    (∀ (K : Type) [DecidableEq K] (mid : ℕ) (t0 t1 : MatchTeam K)
       (snap : Snapshot K) (s lr : ℝ),
       t0.average_badge_team ∈ RANKS → t1.average_badge_team ∈ RANKS →
       t0.players ≠ [] → t1.players ≠ [] →
       ∃ out, run_regression ⟨mid, [t0, t1]⟩ snap s lr = .ok out) ∧
    (∀ (K : Type) [DecidableEq K] (mid : ℕ) (t0 t1 : MatchTeam K)
       (snap : Snapshot K) (s lr : ℝ) (i0 i1 : ℕ),
       listIndex t0.average_badge_team RANKS = some i0 →
       listIndex t1.average_badge_team RANKS = some i1 →
       (t0.players = [] ∨ t1.players = []) →
       run_regression ⟨mid, [t0, t1]⟩ snap s lr = .error .zeroDivisionError) := by
  constructor
  · intro K instK mid t0 t1 snap s lr hm0 hm1 hp0 hp1
    rcases listIndex_of_mem hm0 with ⟨i0, hi0⟩
    rcases listIndex_of_mem hm1 with ⟨i1, hi1⟩
    exact ⟨_, run_regression_eq mid t0 t1 snap s lr i0 i1 hi0 hi1 hp0 hp1⟩
  · intro K instK mid t0 t1 snap s lr i0 i1 hi0 hi1 hp
    unfold run_regression
    dsimp only
    rw [hi0, hi1]
    dsimp only
    rcases hp with hp | hp
    · rw [if_pos (Or.inl (by rw [hp]; rfl))]
    · rw [if_pos (Or.inr (by rw [hp]; rfl))]

/-- C10: witness — a well-formed match succeeds, and a match whose first
team has an empty roster raises ZeroDivisionError. -/
theorem c10_witness :
    (∃ out, run_regression mC10ok snapEmpty 1.06 1.5 = .ok out) ∧
    run_regression mC10empty snapEmpty 1.06 1.5 = .error RegError.zeroDivisionError := by
  constructor
  · unfold mC10ok
    exact c10_theorem.1 (ℕ × ℕ) 13 ⟨[(45, 1)], 24, true⟩ ⟨[(46, 1)], 26, false⟩ snapEmpty
      1.06 1.5 (by decide) (by decide) (by decide) (by decide)
  · unfold mC10empty
    exact c10_theorem.2 (ℕ × ℕ) 14 ⟨[], 24, true⟩ ⟨[(47, 1)], 26, false⟩ snapEmpty
      1.06 1.5 10 12 (by decide) (by decide) (Or.inl rfl)

/-- C7: on every two-team match whose badge codes are not both 116, and for
equal sensitivity and learning-rate parameters, the same entity-key type
and the same starting snapshot, the run_regression of mmr_calc_optim.py
returns exactly the same replacement ratings and error as the
run_regression of hero_mmr_calc.py — the two variants are one algorithm
differing only in constants and key strategy. -/
theorem c7_theorem {K : Type} [DecidableEq K] (mid : ℕ) (t0 t1 : MatchTeam K)
    (snap : Snapshot K) (s lr : ℝ)
    (hne : ¬(t0.average_badge_team = 116 ∧ t1.average_badge_team = 116)) :
    run_regression_optim ⟨mid, [t0, t1]⟩ snap s lr
      = run_regression ⟨mid, [t0, t1]⟩ snap s lr := by
  unfold run_regression run_regression_optim
  dsimp only
  rw [if_neg hne]
  rcases hL0 : listIndex t0.average_badge_team RANKS with _ | i0 <;>
    rcases hL1 : listIndex t1.average_badge_team RANKS with _ | i1 <;>
    simp only [hL0, hL1]
  simp only [stepErrors, hne, if_false]

/-- C7: witness at a concrete raw-account-id match with badges 24 and 26. -/
theorem c7_witness :
    run_regression_optim mC7w snapEmptyN 1.06 1.5 = run_regression mC7w snapEmptyN 1.06 1.5 := by
  unfold mC7w
  exact c7_theorem 10 ⟨[31], 24, true⟩ ⟨[32], 26, false⟩ snapEmptyN 1.06 1.5 (by decide)

/-- C6: on every two-team match with resolvable badge codes and nonempty
rosters, run_regression's outcome pass computes the logistic expected win
probability 1 / (1 + 10 ^ ((predRank1 - predRank0) / 400)) over the teams'
predicted mean ranks, shifts every team0 member by
sensitivity * (outcome0 - expectedWinProb) with outcome0 = 1 iff team0
won, and shifts every team1 member by exactly the negated quantity; the
anchor pass then adds learning_rate times the recomputed step errors. -/
theorem c6_theorem {K : Type} [DecidableEq K] (mid : ℕ) (t0 t1 : MatchTeam K)
    (snap : Snapshot K) (s lr : ℝ) (i0 i1 : ℕ)
    (h0 : listIndex t0.average_badge_team RANKS = some i0)
    (h1 : listIndex t1.average_badge_team RANKS = some i1)
    (hp0 : t0.players ≠ []) (hp1 : t1.players ≠ []) :
    (let d0 := dictOfKeys snap (i0 : ℝ) t0.players
     let d1 := dictOfKeys snap (i1 : ℝ) t1.players
     let n0 : ℝ := d0.length
     let n1 : ℝ := d1.length
     let pred0 := valsSum d0 / n0
     let pred1 := valsSum d1 / n1
     let e := expected_outcome pred0 pred1
     let o : ℝ := if t0.won then 1 else 0
     let shift := s * (o - e)
     let d0b := d0.map (fun pr => (pr.1, pr.2 + shift))
     let d1b := d1.map (fun pr => (pr.1, pr.2 + -shift))
     let errs := stepErrors t0.average_badge_team t1.average_badge_team
       i0 i1 pred0 pred1 n0 n1
     let nerrs := stepErrors t0.average_badge_team t1.average_badge_team
       i0 i1 (valsSum d0b / n0) (valsSum d1b / n1) n0 n1
     e = 1 / (1 + (10 : ℝ) ^ ((pred1 - pred0) / 400)) ∧
     run_regression ⟨mid, [t0, t1]⟩ snap s lr =
       .ok (d0b.map (fun pr => (pr.1, pr.2 + lr * nerrs.1))
            ++ d1b.map (fun pr => (pr.1, pr.2 + lr * nerrs.2)),
            (|errs.1| + |errs.2|) / 2)) := by
  dsimp only
  refine ⟨rfl, ?_⟩
  rw [run_regression_eq mid t0 t1 snap s lr i0 i1 h0 h1 hp0 hp1]
  dsimp only
  have hmap : (dictOfKeys snap (i1 : ℝ) t1.players).map
      (fun pr => (pr.1, pr.2 + s * (expected_outcome
          (valsSum (dictOfKeys snap (i0 : ℝ) t0.players)
            / ((dictOfKeys snap (i0 : ℝ) t0.players).length : ℝ))
          (valsSum (dictOfKeys snap (i1 : ℝ) t1.players)
            / ((dictOfKeys snap (i1 : ℝ) t1.players).length : ℝ))
          - (if t0.won then (1 : ℝ) else 0))))
      = (dictOfKeys snap (i1 : ℝ) t1.players).map
      (fun pr => (pr.1, pr.2 + -(s * ((if t0.won then (1 : ℝ) else 0) - expected_outcome
          (valsSum (dictOfKeys snap (i0 : ℝ) t0.players)
            / ((dictOfKeys snap (i0 : ℝ) t0.players).length : ℝ))
          (valsSum (dictOfKeys snap (i1 : ℝ) t1.players)
            / ((dictOfKeys snap (i1 : ℝ) t1.players).length : ℝ)))))) := by
    apply List.map_congr_left
    intro pr hpr
    rw [Prod.mk.injEq]
    exact ⟨rfl, by ring⟩
  rw [hmap]
/-- C6: witness at a concrete match with badges 31 and 32. -/
theorem c6_witness :
    ∃ out, run_regression mC6w snapEmpty 1.06 1.5 = .ok out := by
  unfold mC6w
  have h := c6_theorem 9 ⟨[(29, 1)], 31, true⟩ ⟨[(30, 1)], 32, false⟩ snapEmpty 1.06 1.5 13 14
    (by decide) (by decide) (by decide) (by decide)
  exact ⟨_, h.2⟩

/-- A key resolves to none exactly when it is absent from the binding list. -/
theorem lookupLast_eq_none {K : Type} [DecidableEq K] (k : K) (l : List (K × ℝ)) :
    lookupLast k l = none ↔ k ∉ l.map Prod.fst := by
  induction l with
  | nil => simp [lookupLast]
  | cons p t ih =>
    obtain ⟨k2, v⟩ := p
    rcases htl : lookupLast k t with _ | v2
    · have hkt : k ∉ t.map Prod.fst := ih.mp htl
      simp only [lookupLast, htl, List.map_cons, List.mem_cons]
      by_cases hk : k2 = k
      · simp [hk]
      · simp [hkt, hk]
        exact fun h2 => hk h2.symm
    · have hkt : k ∈ t.map Prod.fst := by
        by_contra hmem
        rw [ih.mpr hmem] at htl
        cases htl
      simp only [lookupLast, htl, List.map_cons, List.mem_cons]
      simp [hkt]

/-- C8: frame property of the Apply step — when run_regression succeeds on
a two-team match, merging its result into the snapshot leaves every entity
outside the two rosters untouched, and sets every participating entity to
exactly the replacement value of the returned update list (overwritten,
not incremented). -/
theorem c8_theorem {K : Type} [DecidableEq K] (mid : ℕ) (t0 t1 : MatchTeam K)
    (snap : Snapshot K) (s lr : ℝ) (upd : List (K × ℝ)) (err : ℝ)
    (hok : run_regression ⟨mid, [t0, t1]⟩ snap s lr = .ok (upd, err)) :
    (∀ k, k ∉ t0.players → k ∉ t1.players → updSnap snap upd k = snap k) ∧
    (∀ k, k ∈ t0.players ∨ k ∈ t1.players →
      ∃ v, lookupLast k upd = some v ∧ updSnap snap upd k = some v) := by
  have hkeys : upd.map Prod.fst = t0.players.dedup ++ t1.players.dedup := by
    unfold run_regression at hok
    dsimp only at hok
    rcases hL0 : listIndex t0.average_badge_team RANKS with _ | i0 <;>
      rcases hL1 : listIndex t1.average_badge_team RANKS with _ | i1 <;>
      rw [hL0, hL1] at hok <;> dsimp only at hok
    · cases hok
    · cases hok
    · cases hok
    · by_cases hlen : (dictOfKeys snap ((i0 : ℕ) : ℝ) t0.players).length = 0 ∨
          (dictOfKeys snap ((i1 : ℕ) : ℝ) t1.players).length = 0
      · rw [if_pos hlen] at hok
        cases hok
      · rw [if_neg hlen] at hok
        simp only [Except.ok.injEq, Prod.mk.injEq] at hok
        obtain ⟨hupd, herr⟩ := hok
        rw [← hupd]
        rw [List.map_append]
        congr 1 <;>
          · rw [List.map_map, List.map_map]
            unfold dictOfKeys
            rw [List.map_map]
            exact (List.map_congr_left (fun a ha => rfl)).trans (List.map_id _)
  constructor
  · intro k hk0 hk1
    have hnone : lookupLast k upd = none := by
      rw [lookupLast_eq_none, hkeys]
      simp only [List.mem_append, List.mem_dedup]
      rintro (h | h)
      · exact hk0 h
      · exact hk1 h
    unfold updSnap
    rw [hnone]
  · intro k hk
    have hmem : k ∈ upd.map Prod.fst := by
      rw [hkeys]
      simp only [List.mem_append, List.mem_dedup]
      exact hk
    rcases hv : lookupLast k upd with _ | v
    · rw [lookupLast_eq_none] at hv
      exact absurd hmem hv
    · refine ⟨v, rfl, ?_⟩
      unfold updSnap
      rw [hv]

/-- C8: witness — after applying a concrete match, a non-participant key
keeps its snapshot value and a participant key holds exactly the returned
replacement value. -/
theorem c8_witness :
    ∃ upd err, run_regression mC8w snapEmpty 1.06 1.5 = .ok (upd, err) ∧
      updSnap snapEmpty upd (99, 99) = snapEmpty (99, 99) ∧
      (∃ v, lookupLast (41, 1) upd = some v ∧ updSnap snapEmpty upd (41, 1) = some v) := by
  unfold mC8w
  obtain ⟨upd, err, hok⟩ :
      ∃ u e, run_regression (⟨11, [⟨[(41, 1)], 24, true⟩, ⟨[(42, 1)], 26, false⟩]⟩ :
        GameMatch (ℕ × ℕ)) snapEmpty 1.06 1.5 = .ok (u, e) :=
    ⟨_, _, run_regression_eq 11 ⟨[(41, 1)], 24, true⟩ ⟨[(42, 1)], 26, false⟩ snapEmpty 1.06 1.5
      10 12 (by decide) (by decide) (by decide) (by decide)⟩
  have h := c8_theorem 11 ⟨[(41, 1)], 24, true⟩ ⟨[(42, 1)], 26, false⟩ snapEmpty 1.06 1.5
    upd err hok
  exact ⟨upd, err, hok, h.1 (99, 99) (by decide) (by decide), h.2 (41, 1) (by decide)⟩

end DeadlockMMR
